import Mathlib

/-!
Verification development for the `brightnessandtimeout` repository: a shallow
embedding of the device-interaction helper (`DisplayTestManager`) found in
`utils/common_utils.py` and `src/test_timeout.py`, with theorems about its
retry-readback, navigation, brightness-ramp and timeout-select operations.
-/

namespace BrightnessTimeout

/-- A single device-channel response to one shell query: either the command
raises (device unreachable, shell error) — `fault` — or it returns a payload
string — `ok s`.  A bytes payload is modelled as the already-decoded string,
since the code decodes bytes to a string before any inspection. -/
inductive DevResp where
  | fault : DevResp
  | ok : String → DevResp
  deriving DecidableEq, Repr

/-- Outcome of the retry-readback helper: either the exception of the final
attempt propagates (`raised`) or an integer is returned (`value`). -/
inductive GetResult where
  | raised : GetResult
  | value : Int → GetResult
  deriving DecidableEq, Repr

/-- Full observable behaviour of one run of the retry-readback helper:
its result, the attempt indices after which `time.sleep(1)` ran, and the
number of attempts that issued the shell query. -/
structure ReadbackOut where
  result : GetResult
  sleeps : List Nat
  attempts : Nat
  deriving DecidableEq, Repr

/-- Python's `str.strip()`: drop leading and trailing whitespace. -/
def pyStrip (s : String) : String :=
  String.mk (((s.data.dropWhile Char.isWhitespace).reverse.dropWhile
    Char.isWhitespace).reverse)

/-- `if not result_str or result_str == "null"` on the stripped response. -/
def transientEmpty (s : String) : Bool :=
  s.data.isEmpty || s.data == "null".data

/-- `result_str.isdigit()`: non-empty and consisting solely of digits. -/
def isNumeric (s : String) : Bool :=
  !s.data.isEmpty && s.data.all Char.isDigit

/-- Decimal value of a list of digit characters. -/
def digitsToNat (l : List Char) : Nat :=
  l.foldl (fun acc c => acc * 10 + (c.toNat - 48)) 0

/-- `int(result_str)` for a digit-only string. -/
def parseDigits (s : String) : Int :=
  (digitsToNat s.data : Int)

/-- The retry loop shared verbatim by `_get_brightness` (common_utils.py
lines 116–149, test_timeout.py lines 115–148) and `_get_timeout`
(test_timeout.py lines 150–183).  The list holds the device's response to
the shell query at each successive attempt (its length is `max_retries`);
`i` is the index of the current attempt.  Per attempt:
a `fault` re-raises on the final attempt and otherwise is logged and
followed by `time.sleep(1)`; a stripped response that is empty or `"null"`
hits `continue`, which jumps to the next attempt *skipping* the sleep;
a digit-only stripped response returns its parsed integer; any other
response is logged and falls through to the sleep.  Exhausting the loop
returns the sentinel `0`. -/
def readbackGo : Nat → List DevResp → ReadbackOut
  | _, [] => ⟨GetResult.value 0, [], 0⟩
  | i, DevResp.fault :: rest =>
    if rest.isEmpty then ⟨GetResult.raised, [], 1⟩
    else
      let o := readbackGo (i + 1) rest
      ⟨o.result, i :: o.sleeps, o.attempts + 1⟩
  | i, DevResp.ok s :: rest =>
    let t := pyStrip s
    if transientEmpty t then
      let o := readbackGo (i + 1) rest
      ⟨o.result, o.sleeps, o.attempts + 1⟩
    else if isNumeric t then
      ⟨GetResult.value (parseDigits t), [], 1⟩
    else
      let o := readbackGo (i + 1) rest
      ⟨o.result, i :: o.sleeps, o.attempts + 1⟩

/-- `DisplayTestManager._get_brightness`: the readback loop run from attempt
0 on the per-attempt responses to `settings get system screen_brightness`. -/
def get_brightness (attempts : List DevResp) : ReadbackOut :=
  readbackGo 0 attempts

/-- `DisplayTestManager._get_timeout` (test_timeout.py lines 150–183): the
identical loop for `settings get system screen_off_timeout`. -/
def get_timeout (attempts : List DevResp) : ReadbackOut :=
  readbackGo 0 attempts

/-- A response is transient when it is not a fault and its stripped payload
is empty, the literal `"null"`, or non-numeric. -/
def transientResp : DevResp → Bool
  | DevResp.fault => false
  | DevResp.ok s => transientEmpty (pyStrip s) || !isNumeric (pyStrip s)

/-- A response on which the readback loop returns: a non-fault payload whose
stripped form is digit-only. -/
def returningResp : DevResp → Bool
  | DevResp.fault => false
  | DevResp.ok s => isNumeric (pyStrip s)

/-- The parsed integer of the first attempt whose response is a numeric,
non-empty string, if any. -/
def firstNumeric : List DevResp → Option Int
  | [] => none
  | DevResp.fault :: rest => firstNumeric rest
  | DevResp.ok s :: rest =>
    if isNumeric (pyStrip s) then some (parseDigits (pyStrip s))
    else firstNumeric rest

/-- A shell command issued over the device channel, one constructor per
command shape appearing in the source; `render` recovers the exact command
string the code passes to `ad.adb.shell`. -/
inductive ShellCmd where
  | tap : Nat → Nat → ShellCmd
  | keyevent : String → ShellCmd
  | settingsGet : String → String → ShellCmd
  | dumpsysGrep : String → ShellCmd
  deriving DecidableEq, Repr

/-- The command string the code builds for each `ShellCmd`. -/
def ShellCmd.render : ShellCmd → String
  | ShellCmd.tap x y => s!"input tap {x} {y}"
  | ShellCmd.keyevent c => s!"input keyevent {c}"
  | ShellCmd.settingsGet ns key => s!"settings get {ns} {key}"
  | ShellCmd.dumpsysGrep pat => s!"dumpsys power | grep {pat}"

/-- The three key events `_wake_up_device_simple` (test_timeout.py lines
45–65) sends: WAKEUP, MENU, WAKEUP. -/
def wakeUpCmds : List ShellCmd :=
  [ShellCmd.keyevent "KEYCODE_WAKEUP", ShellCmd.keyevent "KEYCODE_MENU",
   ShellCmd.keyevent "KEYCODE_WAKEUP"]

/-- Outcome of a navigation sequence: every step's coordinate resolved and
was tapped, or a `KeyError` for the first missing coordinate name surfaced
to the caller. -/
inductive NavOutcome where
  | ok : NavOutcome
  | keyError : String → NavOutcome
  deriving DecidableEq, Repr

/-- The step loop of `_navigate_to_brightness_settings` (common_utils.py
lines 97–114) and `_navigate_to_display_settings` (test_timeout.py lines
67–89): for each `(step-name, coordinate-key)` pair in order, look the key
up in the coordinate map (`x, y = self.coords[coord_key]` — a missing key
raises `KeyError`, which both variants let escape, the second after
logging and re-raising) and issue `input tap x y`.  Returns the outcome
and the taps issued. -/
def navigateSteps (coords : List (String × Nat × Nat)) :
    List (String × String) → NavOutcome × List ShellCmd
  | [] => (NavOutcome.ok, [])
  | (_, key) :: rest =>
    match List.lookup key coords with
    | none => (NavOutcome.keyError key, [])
    | some (x, y) =>
      let r := navigateSteps coords rest
      (r.1, ShellCmd.tap x y :: r.2)

/-- The tap a single step produces when its coordinate key resolves. -/
def stepTap (coords : List (String × Nat × Nat)) (p : String × String) :
    Option ShellCmd :=
  (List.lookup p.2 coords).map (fun xy => ShellCmd.tap xy.1 xy.2)

/-- The step list of `_navigate_to_brightness_settings` in
common_utils.py. -/
def brightnessNavSteps : List (String × String) :=
  [("Opening Launcher", "win_button"), ("Clicking Settings", "settings"),
   ("Clicking Display", "display"), ("Clicking Brightness", "brightness")]

/-- The step list of `_navigate_to_display_settings` in test_timeout.py. -/
def displayNavSteps : List (String × String) :=
  [("Opening Launcher", "win_button"), ("Clicking Settings", "settings"),
   ("Clicking Display", "display")]

/-- The `COORDINATES` map of `DisplaySettingsTest`
(test_brightness_adb.py lines 14–19). -/
def COORDINATES : List (String × Nat × Nat) :=
  [("win_button", 20, 1055), ("settings", 296, 577),
   ("display", 242, 955), ("brightness", 178, 321)]

/-- `sub` occurs as a contiguous run inside `l`. -/
def charsContain (sub : List Char) : List Char → Bool
  | [] => sub.isEmpty
  | c :: cs => List.isPrefixOf sub (c :: cs) || charsContain sub cs

/-- `DisplayTestManager._is_screen_off` (test_timeout.py lines 185–194):
query `dumpsys power | grep mWakefulness`; a fault is caught and yields
`False`; otherwise the result is `"Asleep" in state`. -/
def is_screen_off (resp : DevResp) : Bool :=
  match resp with
  | DevResp.fault => false
  | DevResp.ok s => charsContain "Asleep".data s.data

/-- A Python exception escaping one of the modelled operations. -/
inductive PyError where
  | keyError : String → PyError
  | channelFault : PyError
  deriving DecidableEq, Repr

/-- The device-side behaviour `execute_timeout_test` can observe: the
coordinate map, the per-attempt responses to the `_get_timeout` readback,
and the response to the `_is_screen_off` wakefulness query.  Tap and
key-event injections are modelled as always succeeding. -/
structure TimeoutEnv where
  coords : List (String × Nat × Nat)
  timeoutResps : List DevResp
  wakefulnessResp : DevResp

/-- The `try` body of `DisplayTestManager.execute_timeout_test`
(test_timeout.py lines 282–321): navigate to timeout settings (a lookup of
`"screen_timeout"`, whose `KeyError` is re-raised), look up and tap the
option, read the timeout back via `_get_timeout` (whose final-attempt fault
propagates), compare with `expected_ms` (mismatch returns `False`), and for
`0 < wait_sec <= 60` sleep, query the wakefulness state, and wake the
device up again only in the branch where the screen was found off.
Produces the boolean case result and the shell commands issued, or the
escaping exception. -/
def execute_timeout_test_try (env : TimeoutEnv) (timeout_key : String)
    (expected_ms : Int) (wait_sec : Int) :
    Except PyError (Bool × List ShellCmd) :=
  match List.lookup "screen_timeout" env.coords with
  | none => Except.error (PyError.keyError "screen_timeout")
  | some (x0, y0) =>
    match List.lookup timeout_key env.coords with
    | none => Except.error (PyError.keyError timeout_key)
    | some (x, y) =>
      let rb := get_timeout env.timeoutResps
      let tr := ShellCmd.tap x0 y0 :: ShellCmd.tap x y ::
        List.replicate rb.attempts (ShellCmd.settingsGet "system" "screen_off_timeout")
      match rb.result with
      | GetResult.raised => Except.error PyError.channelFault
      | GetResult.value actual =>
        if actual ≠ expected_ms then Except.ok (false, tr)
        else if 0 < wait_sec ∧ wait_sec ≤ 60 then
          let tr2 := tr ++ [ShellCmd.dumpsysGrep "mWakefulness"]
          if is_screen_off env.wakefulnessResp then
            Except.ok (true, tr2 ++ wakeUpCmds)
          else
            Except.ok (true, tr2)
        else
          Except.ok (true, tr)

/-- `execute_timeout_test` proper: the `try` body wrapped in the blanket
`except Exception: … return False` handler (test_timeout.py lines
319–321). -/
def execute_timeout_test (env : TimeoutEnv) (timeout_key : String)
    (expected_ms : Int) (wait_sec : Int) : Bool :=
  match execute_timeout_test_try env timeout_key expected_ms wait_sec with
  | Except.ok r => r.1
  | Except.error _ => false

/-- The shell commands a completed (non-raising) run of
`execute_timeout_test` issued. -/
def execute_timeout_test_trace (env : TimeoutEnv) (timeout_key : String)
    (expected_ms : Int) (wait_sec : Int) : List ShellCmd :=
  match execute_timeout_test_try env timeout_key expected_ms wait_sec with
  | Except.ok r => r.2
  | Except.error _ => []

/-- An entry of the brightness trace: `(direction, press-index,
sampled value)`. -/
abbrev RampEntry := String × Nat × Int

/-- The device as the brightness-ramp code observes it under the
precondition that no device command raises a fault: key presses transform a
device state and a readback always yields an integer (so `_get_brightness`
never raises and never mis-parses). -/
structure RampDev (σ : Type) where
  pressRight : σ → σ
  pressLeft : σ → σ
  read : σ → Int

/-- One press phase of the ramp (the `for i in range(...)` loops): `n`
remaining presses, `i` the 1-based index of the next press, `cur` the
running `current_method_brightness`.  Each iteration injects the key event,
samples the setting, appends `(dir, i, sample)` to the trace and updates
`cur`.  Returns the final device state, the last sample (or the incoming
`cur` when `n = 0`), and the trace entries of the phase. -/
def pressPhase {σ : Type} (press : σ → σ) (read : σ → Int) (dir : String) :
    Nat → Nat → σ → Int → σ × Int × List RampEntry
  | 0, _, d, cur => (d, cur, [])
  | n + 1, i, d, _ =>
    let d1 := press d
    let c := read d1
    let r := pressPhase press read dir n (i + 1) d1 c
    (r.1, r.2.1, (dir, i, c) :: r.2.2)

/-- `DisplayTestManager._adjust_brightness_with_retry` (test_timeout.py
lines 210–246): sample the initial value, run the RIGHT phase, and run the
LEFT phase only when the running sample after the RIGHT phase differs from
the initial value (`if current_method_brightness != initial:`); finally
sample once more.  Returns `(initial, final, trace)`. -/
def adjust_brightness_with_retry {σ : Type} (dev : RampDev σ)
    (right_presses left_presses : Nat) (d0 : σ) :
    Int × Int × List RampEntry :=
  let initial := dev.read d0
  let r := pressPhase dev.pressRight dev.read "RIGHT" right_presses 1 d0 initial
  if r.2.1 ≠ initial then
    let l := pressPhase dev.pressLeft dev.read "LEFT" left_presses 1 r.1 r.2.1
    (initial, dev.read l.1, r.2.2 ++ l.2.2)
  else
    (initial, dev.read r.1, r.2.2)

/-- `DisplayTestManager.execute_brightness_test` (common_utils.py lines
151–202): the same ramp but with both phases run unconditionally, an ENTER
key event (which does not change the brightness state in this model), and a
final sample. -/
def execute_brightness_test {σ : Type} (dev : RampDev σ)
    (right_presses left_presses : Nat) (d0 : σ) :
    Int × Int × List RampEntry :=
  let initial := dev.read d0
  let r := pressPhase dev.pressRight dev.read "RIGHT" right_presses 1 d0 initial
  let l := pressPhase dev.pressLeft dev.read "LEFT" left_presses 1 r.1 r.2.1
  (initial, dev.read l.1, r.2.2 ++ l.2.2)

/-- The `current_method_brightness` value after the RIGHT phase: the last
RIGHT sample, or the initial value when `right_presses = 0`. -/
def rampAfterRightSample {σ : Type} (dev : RampDev σ) (right_presses : Nat)
    (d0 : σ) : Int :=
  (pressPhase dev.pressRight dev.read "RIGHT" right_presses 1 d0
    (dev.read d0)).2.1

/-- The device model of the end-to-end scenario in the specification: the
reading is the state, a RIGHT press adds 10 up to a ceiling of 255, a LEFT
press subtracts 10 clamped at 0. -/
def specDevice : RampDev Int where
  pressRight := fun b => min (b + 10) 255
  pressLeft := fun b => max (b - 10) 0
  read := fun b => b

/-! ### Shared lemmas about the retry-readback loop -/

/-- The two retry-readback helpers are the same loop. -/
theorem get_timeout_eq_get_brightness : get_timeout = get_brightness := rfl

/-- A digit-only string is neither empty nor the literal `"null"`. -/
theorem isNumeric_not_transientEmpty {t : String} (h : isNumeric t = true) :
    transientEmpty t = false := by
  unfold isNumeric at h
  unfold transientEmpty
  rw [Bool.and_eq_true, Bool.not_eq_true'] at h
  obtain ⟨h1, h2⟩ := h
  rw [Bool.or_eq_false_iff]
  refine ⟨h1, ?_⟩
  rw [beq_eq_false_iff_ne]
  intro heq
  rw [heq] at h2
  exact absurd h2 (by decide)

theorem readbackGo_fault_cons (i : Nat) (r : DevResp) (rest : List DevResp) :
    readbackGo i (DevResp.fault :: r :: rest) =
      ⟨(readbackGo (i + 1) (r :: rest)).result,
       i :: (readbackGo (i + 1) (r :: rest)).sleeps,
       (readbackGo (i + 1) (r :: rest)).attempts + 1⟩ := rfl

theorem readbackGo_fault_ne (i : Nat) (rest : List DevResp) (h : rest ≠ []) :
    readbackGo i (DevResp.fault :: rest) =
      ⟨(readbackGo (i + 1) rest).result,
       i :: (readbackGo (i + 1) rest).sleeps,
       (readbackGo (i + 1) rest).attempts + 1⟩ := by
  cases rest with
  | nil => exact absurd rfl h
  | cons r rest' => exact readbackGo_fault_cons i r rest'

theorem readbackGo_ok_transient (i : Nat) (s : String) (rest : List DevResp)
    (h : transientEmpty (pyStrip s) = true) :
    readbackGo i (DevResp.ok s :: rest) =
      ⟨(readbackGo (i + 1) rest).result, (readbackGo (i + 1) rest).sleeps,
       (readbackGo (i + 1) rest).attempts + 1⟩ := by
  simp [readbackGo, h]

theorem readbackGo_ok_numeric (i : Nat) (s : String) (rest : List DevResp)
    (h : isNumeric (pyStrip s) = true) :
    readbackGo i (DevResp.ok s :: rest) =
      ⟨GetResult.value (parseDigits (pyStrip s)), [], 1⟩ := by
  simp [readbackGo, h, isNumeric_not_transientEmpty h]

theorem readbackGo_ok_other (i : Nat) (s : String) (rest : List DevResp)
    (h1 : transientEmpty (pyStrip s) = false)
    (h2 : isNumeric (pyStrip s) = false) :
    readbackGo i (DevResp.ok s :: rest) =
      ⟨(readbackGo (i + 1) rest).result, i :: (readbackGo (i + 1) rest).sleeps,
       (readbackGo (i + 1) rest).attempts + 1⟩ := by
  simp [readbackGo, h1, h2]

/-- The readback loop returns the parsed integer of the first numeric
attempt: earlier transient responses are skipped and earlier faults are
absorbed. -/
theorem readbackGo_firstNumeric :
    ∀ (rs : List DevResp) (i : Nat) (p : Int), firstNumeric rs = some p →
      (readbackGo i rs).result = GetResult.value p := by
  intro rs
  induction rs with
  | nil => intro i p h; simp [firstNumeric] at h
  | cons r rest ih =>
    intro i p h
    cases r with
    | fault =>
      rw [show firstNumeric (DevResp.fault :: rest) = firstNumeric rest from rfl] at h
      cases rest with
      | nil => simp [firstNumeric] at h
      | cons r' rest' =>
        rw [readbackGo_fault_cons]
        exact ih (i + 1) p h
    | ok s =>
      by_cases hn : isNumeric (pyStrip s) = true
      · have : firstNumeric (DevResp.ok s :: rest) =
            some (parseDigits (pyStrip s)) := by
          simp [firstNumeric, hn]
        rw [this] at h
        injection h with h'
        rw [readbackGo_ok_numeric i s rest hn, h']
      · have hn' : isNumeric (pyStrip s) = false := by simpa using hn
        have : firstNumeric (DevResp.ok s :: rest) = firstNumeric rest := by
          simp [firstNumeric, hn']
        rw [this] at h
        by_cases ht : transientEmpty (pyStrip s) = true
        · rw [readbackGo_ok_transient i s rest ht]
          exact ih (i + 1) p h
        · have ht' : transientEmpty (pyStrip s) = false := by simpa using ht
          rw [readbackGo_ok_other i s rest ht' hn']
          exact ih (i + 1) p h

/-- If every attempt is transient the loop returns the sentinel `0` after
executing all attempts. -/
theorem readbackGo_all_transient :
    ∀ (rs : List DevResp) (i : Nat), (∀ r ∈ rs, transientResp r = true) →
      (readbackGo i rs).result = GetResult.value 0 ∧
      (readbackGo i rs).attempts = rs.length := by
  intro rs
  induction rs with
  | nil => intro i _; exact ⟨rfl, rfl⟩
  | cons r rest ih =>
    intro i h
    have hr := h r (List.mem_cons_self r rest)
    have hrest : ∀ x ∈ rest, transientResp x = true :=
      fun x hx => h x (List.mem_cons_of_mem r hx)
    cases r with
    | fault => simp [transientResp] at hr
    | ok s =>
      rw [show transientResp (DevResp.ok s) =
        (transientEmpty (pyStrip s) || !isNumeric (pyStrip s)) from rfl] at hr
      by_cases ht : transientEmpty (pyStrip s) = true
      · rw [readbackGo_ok_transient i s rest ht]
        have hih := ih (i + 1) hrest
        exact ⟨hih.1, by simp [hih.2]⟩
      · have ht' : transientEmpty (pyStrip s) = false := by simpa using ht
        rw [ht'] at hr
        have hn : isNumeric (pyStrip s) = false := by simpa using hr
        rw [readbackGo_ok_other i s rest ht' hn]
        have hih := ih (i + 1) hrest
        exact ⟨hih.1, by simp [hih.2]⟩

/-- Every integer the readback loop returns is non-negative: parsed values
are natural-number casts and the sentinel is `0`. -/
theorem readbackGo_value_nonneg :
    ∀ (rs : List DevResp) (i : Nat) (v : Int),
      (readbackGo i rs).result = GetResult.value v → 0 ≤ v := by
  intro rs
  induction rs with
  | nil =>
    intro i v h
    injection h with h'
    omega
  | cons r rest ih =>
    intro i v h
    cases r with
    | fault =>
      cases rest with
      | nil => exact absurd h (by simp [readbackGo])
      | cons r' rest' =>
        rw [readbackGo_fault_cons] at h
        exact ih (i + 1) v h
    | ok s =>
      by_cases hn : isNumeric (pyStrip s) = true
      · rw [readbackGo_ok_numeric i s rest hn] at h
        injection h with h'
        rw [show parseDigits (pyStrip s) =
          ((digitsToNat (pyStrip s).data : Nat) : Int) from rfl] at h'
        omega
      · have hn' : isNumeric (pyStrip s) = false := by simpa using hn
        by_cases ht : transientEmpty (pyStrip s) = true
        · rw [readbackGo_ok_transient i s rest ht] at h
          exact ih (i + 1) v h
        · have ht' : transientEmpty (pyStrip s) = false := by simpa using ht
          rw [readbackGo_ok_other i s rest ht' hn'] at h
          exact ih (i + 1) v h

/-! ### Claim C1 -/

/-- C1 counterexample: the response `"0"` of the very first attempt is a
numeric, non-empty string, yet the helper returns `0` — exactly the
sentinel, not a value distinct from it, even though later attempts would
have yielded `7`. -/
theorem c1_counterexample :
    isNumeric (pyStrip "0") = true ∧ (pyStrip "0").data.isEmpty = false ∧
    (get_brightness [DevResp.ok "0", DevResp.ok "7", DevResp.ok "7"]).result =
      GetResult.value 0 := by decide

/-- C1 (amended): whenever some attempt yields a numeric, non-empty
response, the helper returns the parsed integer of the first such response;
this value is distinct from the sentinel `0` whenever that response parses
to a nonzero value (a numeric response `"0"` yields the sentinel itself). -/
theorem c1_returns_first_numeric (rs : List DevResp) (p : Int)
    (h : firstNumeric rs = some p) :
    (get_brightness rs).result = GetResult.value p ∧
    (get_timeout rs).result = GetResult.value p ∧
    (p ≠ 0 → (get_brightness rs).result ≠ GetResult.value 0) := by
  have h1 := readbackGo_firstNumeric rs 0 p h
  refine ⟨h1, h1, fun hp hc => ?_⟩
  rw [show get_brightness rs = readbackGo 0 rs from rfl] at hc
  rw [h1] at hc
  injection hc with h'
  exact hp h'

/-- Witness for C1: attempts `["abc", " 42 ", ""]` — the first numeric
response is `" 42 "`, and the helper returns 42. -/
theorem c1_returns_first_numeric_witness :
    (get_brightness [DevResp.ok "abc", DevResp.ok " 42 ", DevResp.ok ""]).result =
      GetResult.value 42 ∧
    (get_brightness [DevResp.ok "abc", DevResp.ok " 42 ", DevResp.ok ""]).result ≠
      GetResult.value 0 :=
  ⟨(c1_returns_first_numeric _ 42 (by decide)).1,
   (c1_returns_first_numeric _ 42 (by decide)).2.2 (by decide)⟩

/-! ### Claim C2 -/

/-- C2: if every attempt yields only a transient response (empty, `"null"`,
or non-numeric non-empty) and none raises, the helper does not raise and
returns the sentinel `0` after executing all attempts. -/
theorem c2_transient_returns_sentinel (rs : List DevResp)
    (h : ∀ r ∈ rs, transientResp r = true) :
    (get_brightness rs).result = GetResult.value 0 ∧
    (get_brightness rs).attempts = rs.length ∧
    (get_timeout rs).result = GetResult.value 0 ∧
    (get_timeout rs).attempts = rs.length := by
  have hg := readbackGo_all_transient rs 0 h
  exact ⟨hg.1, hg.2, hg.1, hg.2⟩

/-- Witness for C2: three transient attempts (empty, `"null"`,
non-numeric). -/
theorem c2_transient_returns_sentinel_witness :
    (get_brightness [DevResp.ok "", DevResp.ok "null", DevResp.ok "abc"]).result =
      GetResult.value 0 ∧
    (get_brightness [DevResp.ok "", DevResp.ok "null", DevResp.ok "abc"]).attempts = 3 :=
  ⟨(c2_transient_returns_sentinel _ (by decide)).1,
   (c2_transient_returns_sentinel _ (by decide)).2.1⟩

/-! ### Claim C10 -/

/-- C10: every integer the retry-readback helper returns is non-negative —
a response is parsed only when digit-only (signed strings are transient)
and the fallback sentinel is `0`. -/
theorem c10_readback_nonneg (rs : List DevResp) (v : Int) :
    ((get_brightness rs).result = GetResult.value v → 0 ≤ v) ∧
    ((get_timeout rs).result = GetResult.value v → 0 ≤ v) :=
  ⟨fun h => readbackGo_value_nonneg rs 0 v h,
   fun h => readbackGo_value_nonneg rs 0 v h⟩

/-- Witness for C10 at the single numeric attempt `"7"`. -/
theorem c10_readback_nonneg_witness :
    (get_brightness [DevResp.ok "7"]).result = GetResult.value 7 ∧ 0 ≤ (7 : Int) :=
  ⟨by decide, (c10_readback_nonneg [DevResp.ok "7"] 7).1 (by decide)⟩

/-! ### Claim C3 -/

/-- The readback loop raises exactly when the response list consists of
non-returning attempts followed by a fault at the final attempt. -/
theorem readbackGo_raised_iff :
    ∀ (rs : List DevResp) (i : Nat),
      ((readbackGo i rs).result = GetResult.raised ↔
        ∃ pre, rs = pre ++ [DevResp.fault] ∧
          ∀ r ∈ pre, returningResp r = false) := by
  intro rs
  induction rs with
  | nil =>
    intro i
    constructor
    · intro h
      exact absurd h (by simp [readbackGo])
    · rintro ⟨pre, hEq, -⟩
      exact absurd hEq.symm (by simp)
  | cons r rest ih =>
    intro i
    cases r with
    | fault =>
      cases rest with
      | nil =>
        constructor
        · intro _
          exact ⟨[], rfl, by simp⟩
        · intro _
          rfl
      | cons r' rest' =>
        rw [readbackGo_fault_cons]
        show (readbackGo (i + 1) (r' :: rest')).result = GetResult.raised ↔ _
        rw [ih (i + 1)]
        constructor
        · rintro ⟨pre, hEq, hP⟩
          refine ⟨DevResp.fault :: pre, by rw [hEq]; rfl, ?_⟩
          intro x hx
          rcases List.mem_cons.mp hx with h | h
          · rw [h]; rfl
          · exact hP x h
        · rintro ⟨pre, hEq, hP⟩
          cases pre with
          | nil => simp at hEq
          | cons q pre' =>
            rw [List.cons_append] at hEq
            injection hEq with h1 h2
            exact ⟨pre', h2, fun x hx => hP x (List.mem_cons_of_mem q hx)⟩
    | ok s =>
      by_cases hn : isNumeric (pyStrip s) = true
      · rw [readbackGo_ok_numeric i s rest hn]
        constructor
        · intro h
          exact absurd h (by simp)
        · rintro ⟨pre, hEq, hP⟩
          cases pre with
          | nil => simp at hEq
          | cons q pre' =>
            rw [List.cons_append] at hEq
            injection hEq with h1 h2
            have hq := hP q (List.mem_cons_self q pre')
            rw [← h1] at hq
            rw [show returningResp (DevResp.ok s) = isNumeric (pyStrip s)
              from rfl] at hq
            rw [hn] at hq
            exact absurd hq (by simp)
      · have hn' : isNumeric (pyStrip s) = false := by simpa using hn
        have hres : (readbackGo i (DevResp.ok s :: rest)).result =
            (readbackGo (i + 1) rest).result := by
          by_cases ht : transientEmpty (pyStrip s) = true
          · rw [readbackGo_ok_transient i s rest ht]
          · have ht' : transientEmpty (pyStrip s) = false := by simpa using ht
            rw [readbackGo_ok_other i s rest ht' hn']
        rw [hres, ih (i + 1)]
        constructor
        · rintro ⟨pre, hEq, hP⟩
          refine ⟨DevResp.ok s :: pre, by rw [hEq]; rfl, ?_⟩
          intro x hx
          rcases List.mem_cons.mp hx with h | h
          · rw [h]
            rw [show returningResp (DevResp.ok s) = isNumeric (pyStrip s)
              from rfl]
            exact hn'
          · exact hP x h
        · rintro ⟨pre, hEq, hP⟩
          cases pre with
          | nil => simp at hEq
          | cons q pre' =>
            rw [List.cons_append] at hEq
            injection hEq with h1 h2
            exact ⟨pre', h2, fun x hx => hP x (List.mem_cons_of_mem q hx)⟩

/-- C3: the retry-readback helper propagates an exception if and only if
the final attempt is reached (all earlier attempts being non-returning,
faults among them absorbed and retried) and that final attempt is a hard
channel fault; transient responses at the final attempt never raise. -/
theorem c3_raises_iff_final_fault (rs : List DevResp) :
    ((get_brightness rs).result = GetResult.raised ↔
      ∃ pre, rs = pre ++ [DevResp.fault] ∧
        ∀ r ∈ pre, returningResp r = false) ∧
    ((get_timeout rs).result = GetResult.raised ↔
      ∃ pre, rs = pre ++ [DevResp.fault] ∧
        ∀ r ∈ pre, returningResp r = false) :=
  ⟨readbackGo_raised_iff rs 0, readbackGo_raised_iff rs 0⟩

/-! ### Claim C4 -/

/-- Every attempt index recorded in the sleep log is at least the starting
attempt index. -/
theorem sleeps_ge :
    ∀ (rs : List DevResp) (i x : Nat),
      x ∈ (readbackGo i rs).sleeps → i ≤ x := by
  intro rs
  induction rs with
  | nil =>
    intro i x h
    simp [readbackGo] at h
  | cons r rest ih =>
    intro i x h
    cases r with
    | fault =>
      cases rest with
      | nil => simp [readbackGo] at h
      | cons r' rest' =>
        rw [readbackGo_fault_cons] at h
        rcases List.mem_cons.mp h with h | h
        · omega
        · have := ih (i + 1) x h
          omega
    | ok s =>
      by_cases hn : isNumeric (pyStrip s) = true
      · rw [readbackGo_ok_numeric i s rest hn] at h
        simp at h
      · have hn' : isNumeric (pyStrip s) = false := by simpa using hn
        by_cases ht : transientEmpty (pyStrip s) = true
        · rw [readbackGo_ok_transient i s rest ht] at h
          have := ih (i + 1) x h
          omega
        · have ht' : transientEmpty (pyStrip s) = false := by simpa using ht
          rw [readbackGo_ok_other i s rest ht' hn'] at h
          rcases List.mem_cons.mp h with h | h
          · omega
          · have := ih (i + 1) x h
            omega

/-- Crossing a prefix of non-returning attempts shifts sleep-log
membership questions about later attempt indices past the prefix. -/
theorem sleeps_append_mem :
    ∀ (pre post : List DevResp) (i x : Nat),
      (∀ r ∈ pre, returningResp r = false) → post ≠ [] →
      pre.length + i ≤ x →
      (x ∈ (readbackGo i (pre ++ post)).sleeps ↔
        x ∈ (readbackGo (i + pre.length) post).sleeps) := by
  intro pre
  induction pre with
  | nil =>
    intro post i x _ _ _
    simp
  | cons r pre' ih =>
    intro post i x hP hpost hx
    have hP' : ∀ y ∈ pre', returningResp y = false :=
      fun y hy => hP y (List.mem_cons_of_mem r hy)
    have hne : pre' ++ post ≠ [] := by
      intro hc
      exact hpost (List.append_eq_nil.mp hc).2
    have hxlen : pre'.length + (i + 1) ≤ x := by
      simp [List.length_cons] at hx
      omega
    have hidx : (i + 1) + pre'.length = i + (r :: pre').length := by
      simp [List.length_cons]
      omega
    cases r with
    | fault =>
      rw [List.cons_append, readbackGo_fault_ne i (pre' ++ post) hne]
      have hxi : x ≠ i := by
        simp [List.length_cons] at hx
        omega
      rw [show (⟨(readbackGo (i + 1) (pre' ++ post)).result,
        i :: (readbackGo (i + 1) (pre' ++ post)).sleeps,
        (readbackGo (i + 1) (pre' ++ post)).attempts + 1⟩ :
          ReadbackOut).sleeps =
        i :: (readbackGo (i + 1) (pre' ++ post)).sleeps from rfl]
      rw [List.mem_cons]
      rw [ih post (i + 1) x hP' hpost hxlen]
      rw [hidx]
      simp [hxi]
    | ok s =>
      have hr := hP (DevResp.ok s) (List.mem_cons_self _ _)
      rw [show returningResp (DevResp.ok s) = isNumeric (pyStrip s)
        from rfl] at hr
      by_cases ht : transientEmpty (pyStrip s) = true
      · rw [List.cons_append, readbackGo_ok_transient i s (pre' ++ post) ht]
        rw [show (⟨(readbackGo (i + 1) (pre' ++ post)).result,
          (readbackGo (i + 1) (pre' ++ post)).sleeps,
          (readbackGo (i + 1) (pre' ++ post)).attempts + 1⟩ :
            ReadbackOut).sleeps =
          (readbackGo (i + 1) (pre' ++ post)).sleeps from rfl]
        rw [ih post (i + 1) x hP' hpost hxlen]
        rw [hidx]
      · have ht' : transientEmpty (pyStrip s) = false := by simpa using ht
        rw [List.cons_append, readbackGo_ok_other i s (pre' ++ post) ht' hr]
        have hxi : x ≠ i := by
          simp [List.length_cons] at hx
          omega
        rw [show (⟨(readbackGo (i + 1) (pre' ++ post)).result,
          i :: (readbackGo (i + 1) (pre' ++ post)).sleeps,
          (readbackGo (i + 1) (pre' ++ post)).attempts + 1⟩ :
            ReadbackOut).sleeps =
          i :: (readbackGo (i + 1) (pre' ++ post)).sleeps from rfl]
        rw [List.mem_cons]
        rw [ih post (i + 1) x hP' hpost hxlen]
        rw [hidx]
        simp [hxi]

/-- C4 counterexample: attempt 0 is non-final and observes the empty
string, yet no 1-second sleep follows it (the `continue` skips the sleep),
whereas a non-numeric non-empty response at attempt 0 is followed by the
sleep. -/
theorem c4_counterexample :
    (get_brightness [DevResp.ok "", DevResp.ok "7"]).sleeps = [] ∧
    (get_brightness [DevResp.ok "abc", DevResp.ok "7"]).sleeps = [0] := by
  decide

/-- C4 (amended): a non-final attempt that observes an empty or `"null"`
response retries immediately — the `continue` skips the fixed 1-second
backoff — unlike a non-numeric non-empty response, which is followed by
the 1-second sleep. -/
theorem c4_empty_skips_backoff (pre post : List DevResp) (s : String)
    (hpre : ∀ r ∈ pre, returningResp r = false) :
    (transientEmpty (pyStrip s) = true → post ≠ [] →
      pre.length ∉
        (get_brightness (pre ++ DevResp.ok s :: post)).sleeps) ∧
    (transientEmpty (pyStrip s) = false → isNumeric (pyStrip s) = false →
      pre.length ∈
        (get_brightness (pre ++ DevResp.ok s :: post)).sleeps) := by
  constructor
  · intro ht hpost
    rw [show get_brightness (pre ++ DevResp.ok s :: post) =
      readbackGo 0 (pre ++ DevResp.ok s :: post) from rfl]
    rw [sleeps_append_mem pre (DevResp.ok s :: post) 0 pre.length hpre
      (by simp) (by omega)]
    rw [show 0 + pre.length = pre.length by omega]
    rw [readbackGo_ok_transient pre.length s post ht]
    intro hmem
    have := sleeps_ge post (pre.length + 1) pre.length hmem
    omega
  · intro ht hn
    rw [show get_brightness (pre ++ DevResp.ok s :: post) =
      readbackGo 0 (pre ++ DevResp.ok s :: post) from rfl]
    rw [sleeps_append_mem pre (DevResp.ok s :: post) 0 pre.length hpre
      (by simp) (by omega)]
    rw [show 0 + pre.length = pre.length by omega]
    rw [readbackGo_ok_other pre.length s post ht hn]
    exact List.mem_cons_self _ _

/-- Witness for C4: with no earlier attempts and one later attempt, the
empty response at attempt 0 leaves the sleep log without index 0, while a
non-numeric response at attempt 0 puts index 0 in the sleep log. -/
theorem c4_empty_skips_backoff_witness :
    0 ∉ (get_brightness [DevResp.ok "", DevResp.ok "7"]).sleeps ∧
    0 ∈ (get_brightness [DevResp.ok "abc", DevResp.ok "7"]).sleeps :=
  ⟨(c4_empty_skips_backoff [] [DevResp.ok "7"] "" (by simp)).1
      (by decide) (by decide),
   (c4_empty_skips_backoff [] [DevResp.ok "7"] "abc" (by simp)).2
      (by decide) (by decide)⟩

/-! ### Claim C5 -/

/-- When every step's coordinate name resolves, the sequencer issues the
steps' taps in order. -/
theorem navigateSteps_all_some (coords : List (String × Nat × Nat)) :
    ∀ (steps : List (String × String)),
      (∀ p ∈ steps, (List.lookup p.2 coords).isSome = true) →
      navigateSteps coords steps =
        (NavOutcome.ok, steps.filterMap (stepTap coords)) := by
  intro steps
  induction steps with
  | nil => intro _; rfl
  | cons p rest ih =>
    intro h
    obtain ⟨name, key⟩ := p
    have hp := h (name, key) (List.mem_cons_self _ _)
    rw [Option.isSome_iff_exists] at hp
    obtain ⟨xy, hxy⟩ := hp
    obtain ⟨x, y⟩ := xy
    have hrest := ih (fun q hq => h q (List.mem_cons_of_mem _ hq))
    simp [navigateSteps, stepTap, hxy, List.filterMap_cons, hrest]

/-- The number of taps of a fully resolving step list equals its length. -/
theorem filterMap_stepTap_length (coords : List (String × Nat × Nat)) :
    ∀ (steps : List (String × String)),
      (∀ p ∈ steps, (List.lookup p.2 coords).isSome = true) →
      (steps.filterMap (stepTap coords)).length = steps.length := by
  intro steps
  induction steps with
  | nil => intro _; rfl
  | cons p rest ih =>
    intro h
    have hp := h p (List.mem_cons_self _ _)
    rw [Option.isSome_iff_exists] at hp
    obtain ⟨xy, hxy⟩ := hp
    have hrest := ih (fun q hq => h q (List.mem_cons_of_mem _ hq))
    simp [stepTap, hxy, List.filterMap_cons, hrest]

/-- The first step whose coordinate name is missing aborts the sequence:
only the earlier steps' taps are issued and the `KeyError` surfaces. -/
theorem navigateSteps_abort (coords : List (String × Nat × Nat)) :
    ∀ (pre : List (String × String)) (name key : String)
      (post : List (String × String)),
      (∀ p ∈ pre, (List.lookup p.2 coords).isSome = true) →
      List.lookup key coords = none →
      navigateSteps coords (pre ++ (name, key) :: post) =
        (NavOutcome.keyError key, pre.filterMap (stepTap coords)) := by
  intro pre
  induction pre with
  | nil =>
    intro name key post _ hk
    simp [navigateSteps, hk]
  | cons p pre' ih =>
    intro name key post h hk
    obtain ⟨n0, k0⟩ := p
    have hp := h (n0, k0) (List.mem_cons_self _ _)
    rw [Option.isSome_iff_exists] at hp
    obtain ⟨xy, hxy⟩ := hp
    obtain ⟨x, y⟩ := xy
    have hrest := ih name key post
      (fun q hq => h q (List.mem_cons_of_mem _ hq)) hk
    simp [navigateSteps, stepTap, hxy, List.filterMap_cons, hrest]

/-- C5: the navigation sequencer issues exactly one tap per configured
step, in the configured order, and the first step whose coordinate name is
absent from the coordinate map aborts the sequence — no tap for that step
or any later step — surfacing the lookup failure to the caller. -/
theorem c5_navigation_order_and_abort :
    (∀ (coords : List (String × Nat × Nat)) (steps : List (String × String)),
      (∀ p ∈ steps, (List.lookup p.2 coords).isSome = true) →
      navigateSteps coords steps =
        (NavOutcome.ok, steps.filterMap (stepTap coords)) ∧
      (steps.filterMap (stepTap coords)).length = steps.length) ∧
    (∀ (coords : List (String × Nat × Nat)) (pre : List (String × String))
        (name key : String) (post : List (String × String)),
      (∀ p ∈ pre, (List.lookup p.2 coords).isSome = true) →
      List.lookup key coords = none →
      navigateSteps coords (pre ++ (name, key) :: post) =
        (NavOutcome.keyError key, pre.filterMap (stepTap coords)) ∧
      (pre.filterMap (stepTap coords)).length = pre.length) :=
  ⟨fun coords steps h =>
    ⟨navigateSteps_all_some coords steps h,
     filterMap_stepTap_length coords steps h⟩,
   fun coords pre name key post hp hk =>
    ⟨navigateSteps_abort coords pre name key post hp hk,
     filterMap_stepTap_length coords pre hp⟩⟩

/-- The coordinate map of test_brightness_adb.py with the `"display"` entry
removed, to exhibit a failing lookup mid-sequence. -/
def coordsMissingDisplay : List (String × Nat × Nat) :=
  [("win_button", 20, 1055), ("settings", 296, 577), ("brightness", 178, 321)]

/-- The brightness navigation steps before and after the `"display"`
step. -/
def navPreDisplay : List (String × String) :=
  [("Opening Launcher", "win_button"), ("Clicking Settings", "settings")]

/-- The single step after the `"display"` step of the brightness
navigation. -/
def navPostDisplay : List (String × String) :=
  [("Clicking Brightness", "brightness")]

/-- Witness for C5: the full brightness navigation succeeds over the
configured coordinates, and with the `"display"` entry removed it aborts
at the third step having tapped only the first two. -/
theorem c5_navigation_order_and_abort_witness :
    navigateSteps COORDINATES brightnessNavSteps =
      (NavOutcome.ok, brightnessNavSteps.filterMap (stepTap COORDINATES)) ∧
    navigateSteps coordsMissingDisplay
        (navPreDisplay ++ ("Clicking Display", "display") :: navPostDisplay) =
      (NavOutcome.keyError "display",
        navPreDisplay.filterMap (stepTap coordsMissingDisplay)) :=
  ⟨(c5_navigation_order_and_abort.1 COORDINATES brightnessNavSteps
      (by decide)).1,
   (c5_navigation_order_and_abort.2 coordsMissingDisplay navPreDisplay
      "Clicking Display" "display" navPostDisplay (by decide) (by decide)).1⟩

/-! ### Claim C6 -/

/-- A timeout environment whose coordinate map has only the
`"screen_timeout"` entry. -/
def envMissingOption : TimeoutEnv :=
  ⟨[("screen_timeout", 100, 200)], [], DevResp.ok ""⟩

/-- C6 counterexample: with `"15_seconds"` absent from the coordinate map,
the lookup failure raises a `KeyError` inside the `try` body, but
`execute_timeout_test` absorbs it via its blanket handler and returns the
boolean `False` — it does not propagate to the caller. -/
theorem c6_counterexample :
    execute_timeout_test_try envMissingOption "15_seconds" 15000 0 =
      Except.error (PyError.keyError "15_seconds") ∧
    execute_timeout_test envMissingOption "15_seconds" 15000 0 = false :=
  ⟨rfl, rfl⟩

/-- C6 (amended): for every timeout option name not present in the
coordinate map, the lookup raises a `KeyError` inside the `try` body of
`execute_timeout_test`, and the function's blanket exception handler
absorbs it into the boolean case result `False` instead of propagating it
to the caller. -/
theorem c6_lookup_failure_absorbed (env : TimeoutEnv) (key : String)
    (expected_ms wait_sec : Int) (c : Nat × Nat)
    (h0 : List.lookup "screen_timeout" env.coords = some c)
    (h1 : List.lookup key env.coords = none) :
    execute_timeout_test_try env key expected_ms wait_sec =
      Except.error (PyError.keyError key) ∧
    execute_timeout_test env key expected_ms wait_sec = false := by
  obtain ⟨x0, y0⟩ := c
  have hb : execute_timeout_test_try env key expected_ms wait_sec =
      Except.error (PyError.keyError key) := by
    simp [execute_timeout_test_try, h0, h1]
  exact ⟨hb, by simp [execute_timeout_test, hb]⟩

/-- Witness for C6 at the environment missing the `"15_seconds"` entry. -/
theorem c6_lookup_failure_absorbed_witness :
    execute_timeout_test_try envMissingOption "15_seconds" 15000 0 =
      Except.error (PyError.keyError "15_seconds") ∧
    execute_timeout_test envMissingOption "15_seconds" 15000 0 = false :=
  c6_lookup_failure_absorbed envMissingOption "15_seconds" 15000 0
    (100, 200) (by decide) (by decide)

/-! ### Claim C7 -/

/-- A press phase appends exactly one trace entry per press. -/
theorem pressPhase_length {σ : Type} (press : σ → σ) (read : σ → Int)
    (dir : String) :
    ∀ (n i : Nat) (d : σ) (cur : Int),
      (pressPhase press read dir n i d cur).2.2.length = n := by
  intro n
  induction n with
  | zero => intro i d cur; rfl
  | succ m ih =>
    intro i d cur
    simp [pressPhase, ih]

/-- C7: with no device command faulting, the ramp trace of
`_adjust_brightness_with_retry` has `right_presses + left_presses` entries
when both phases execute and exactly `right_presses` when the decrease
phase is skipped because the running sample after the increase phase still
equals the initial value; the `execute_brightness_test` variant in
common_utils.py always runs both phases. -/
theorem c7_ramp_trace_length {σ : Type} (dev : RampDev σ)
    (right_presses left_presses : Nat) (d0 : σ) :
    (adjust_brightness_with_retry dev right_presses left_presses d0).2.2.length =
      (if rampAfterRightSample dev right_presses d0 = dev.read d0
        then right_presses else right_presses + left_presses) ∧
    (execute_brightness_test dev right_presses left_presses d0).2.2.length =
      right_presses + left_presses := by
  constructor
  · by_cases h : rampAfterRightSample dev right_presses d0 = dev.read d0
    · rw [if_pos h]
      rw [show rampAfterRightSample dev right_presses d0 =
        (pressPhase dev.pressRight dev.read "RIGHT" right_presses 1 d0
          (dev.read d0)).2.1 from rfl] at h
      simp [adjust_brightness_with_retry, h, pressPhase_length]
    · rw [if_neg h]
      rw [show rampAfterRightSample dev right_presses d0 =
        (pressPhase dev.pressRight dev.read "RIGHT" right_presses 1 d0
          (dev.read d0)).2.1 from rfl] at h
      simp [adjust_brightness_with_retry, h, pressPhase_length]
  · simp [execute_brightness_test, pressPhase_length]

/-! ### Claim C8 -/

/-- A timeout environment for the 30-seconds case whose device reports
`Asleep` after the verification wait. -/
def envAsleep : TimeoutEnv :=
  ⟨[("screen_timeout", 100, 200), ("30_seconds", 300, 400)],
   [DevResp.ok "30000"], DevResp.ok "mWakefulness=Asleep"⟩

/-- A timeout environment identical to `envAsleep` except the device is
still awake after the verification wait. -/
def envAwake : TimeoutEnv :=
  ⟨[("screen_timeout", 100, 200), ("30_seconds", 300, 400)],
   [DevResp.ok "30000"], DevResp.ok "mWakefulness=Awake"⟩

/-- C8 counterexample: with a matching readback and `wait_sec = 35` but a
device that stays awake, the case still returns `True`, yet no wake-up
key event is issued before the function returns — the wake-up is not
issued "regardless of the screen-state outcome". -/
theorem c8_counterexample :
    execute_timeout_test envAwake "30_seconds" 30000 35 = true ∧
    ShellCmd.keyevent "KEYCODE_WAKEUP" ∉
      execute_timeout_test_trace envAwake "30_seconds" 30000 35 := by
  decide

/-- C8 (amended): when a verification wait in `(0, 60]` is given and the
readback matched the expected value, the screen-state check is log-only —
the case returns `True` whether or not the screen turned off — and the
wake-up commands are issued before the function returns exactly when the
screen-off check reported the screen asleep; when the screen stayed on no
wake-up key event is issued. -/
theorem c8_screen_check_log_only (env : TimeoutEnv) (key : String)
    (expected_ms wait_sec : Int) (x0 y0 x1 y1 : Nat)
    (h0 : List.lookup "screen_timeout" env.coords = some (x0, y0))
    (h1 : List.lookup key env.coords = some (x1, y1))
    (hrb : (get_timeout env.timeoutResps).result =
      GetResult.value expected_ms)
    (hw1 : 0 < wait_sec) (hw2 : wait_sec ≤ 60) :
    execute_timeout_test env key expected_ms wait_sec = true ∧
    (is_screen_off env.wakefulnessResp = true →
      execute_timeout_test_trace env key expected_ms wait_sec =
        (ShellCmd.tap x0 y0 :: ShellCmd.tap x1 y1 ::
          List.replicate (get_timeout env.timeoutResps).attempts
            (ShellCmd.settingsGet "system" "screen_off_timeout") ++
          [ShellCmd.dumpsysGrep "mWakefulness"]) ++ wakeUpCmds) ∧
    (is_screen_off env.wakefulnessResp = false →
      ShellCmd.keyevent "KEYCODE_WAKEUP" ∉
        execute_timeout_test_trace env key expected_ms wait_sec) := by
  by_cases hso : is_screen_off env.wakefulnessResp = true
  · have hb : execute_timeout_test_try env key expected_ms wait_sec =
        Except.ok (true,
          (ShellCmd.tap x0 y0 :: ShellCmd.tap x1 y1 ::
            List.replicate (get_timeout env.timeoutResps).attempts
              (ShellCmd.settingsGet "system" "screen_off_timeout") ++
            [ShellCmd.dumpsysGrep "mWakefulness"]) ++ wakeUpCmds) := by
      simp [execute_timeout_test_try, h0, h1, hrb, hso, hw1, hw2]
    refine ⟨by simp [execute_timeout_test, hb], fun _ => ?_, fun hc => ?_⟩
    · simp [execute_timeout_test_trace, hb]
    · rw [hso] at hc
      exact absurd hc (by simp)
  · have hso' : is_screen_off env.wakefulnessResp = false := by
      simpa using hso
    have hb : execute_timeout_test_try env key expected_ms wait_sec =
        Except.ok (true,
          ShellCmd.tap x0 y0 :: ShellCmd.tap x1 y1 ::
            List.replicate (get_timeout env.timeoutResps).attempts
              (ShellCmd.settingsGet "system" "screen_off_timeout") ++
            [ShellCmd.dumpsysGrep "mWakefulness"]) := by
      simp [execute_timeout_test_try, h0, h1, hrb, hso', hw1, hw2]
    refine ⟨by simp [execute_timeout_test, hb], fun hc => ?_, fun _ => ?_⟩
    · rw [hso'] at hc
      exact absurd hc (by simp)
    · simp [execute_timeout_test_trace, hb, List.mem_replicate]

/-- Witness for C8 at the asleep environment: the case returns `True` and
the trace ends with the three wake-up key events. -/
theorem c8_screen_check_log_only_witness :
    execute_timeout_test envAsleep "30_seconds" 30000 35 = true ∧
    execute_timeout_test_trace envAsleep "30_seconds" 30000 35 =
      (ShellCmd.tap 100 200 :: ShellCmd.tap 300 400 ::
        List.replicate (get_timeout envAsleep.timeoutResps).attempts
          (ShellCmd.settingsGet "system" "screen_off_timeout") ++
        [ShellCmd.dumpsysGrep "mWakefulness"]) ++ wakeUpCmds :=
  ⟨(c8_screen_check_log_only envAsleep "30_seconds" 30000 35 100 200 300 400
      (by decide) (by decide) (by decide) (by decide) (by decide)).1,
   (c8_screen_check_log_only envAsleep "30_seconds" 30000 35 100 200 300 400
      (by decide) (by decide) (by decide) (by decide) (by decide)).2.1
      (by decide)⟩

/-! ### Claim C9 -/

/-- C9 counterexample: under the scenario's device model (initial reading
100, RIGHT adds 10 with ceiling 255, LEFT subtracts 10 clamped at 0), ten
RIGHT presses reach only 200 — not the ceiling — so ten LEFT presses bring
the value back to 100: the final value is not 155, and the caller's
assertion `initial != final` fails (100 = 100). -/
theorem c9_counterexample :
    (adjust_brightness_with_retry specDevice 10 10 100).2.1 ≠ 155 ∧
    ¬ ((adjust_brightness_with_retry specDevice 10 10 100).1 ≠
       (adjust_brightness_with_retry specDevice 10 10 100).2.1) := by
  decide

/-- C9 (amended): in the scenario the decrease phase does execute (the
sample after the increase phase is 200 ≠ 100) and the trace has 20
entries, but the ceiling of 255 is never reached: the final value is 100,
equal to the initial value, so the caller's assertion `initial != final`
fails; the unconditional variant `execute_brightness_test` ends at the
same value. -/
theorem c9_scenario_final_value :
    rampAfterRightSample specDevice 10 100 = 200 ∧
    (adjust_brightness_with_retry specDevice 10 10 100).2.2.length = 20 ∧
    (adjust_brightness_with_retry specDevice 10 10 100).1 = 100 ∧
    (adjust_brightness_with_retry specDevice 10 10 100).2.1 = 100 ∧
    (execute_brightness_test specDevice 10 10 100).2.1 = 100 := by
  decide

end BrightnessTimeout
